import Mathlib

/-!
Shallow embedding of `src/everything3.py` (the `Everything3` class, a Python
ctypes wrapper around the Everything SDK3 library), together with a model of
the vendor library calls the wrapper makes, and proofs settling the claims
about its pagination, error handling and state behaviour.
-/

set_option linter.unusedVariables false

/-- The search-state contents held behind the opaque `search_state` handle.
Fields correspond one-to-one to the `Everything3_SetSearch*` calls the wrapper
issues (lines 62-109 declare them, `search` and the `set_*` methods invoke
them). -/
structure SearchState where
  text : String
  viewport_offset : Nat
  viewport_count : Nat
  match_path : Bool
  match_case : Bool
  match_whole_words : Bool
  regex : Bool
  match_diacritics : Bool
  match_prefix : Bool
  match_suffix : Bool
  ignore_punctuation : Bool
  whitespace : Bool
  folders_first : Nat
  request_total_size : Bool
  hide_result_omissions : Bool
  sort_mix : Bool
deriving Repr, DecidableEq

/-- Modelled from the spec: the vendor library is outside this repository, so
`Everything3_Search` is modelled as evaluating the search text against the
current index snapshot and returning the full ordered match list, or a null
handle (`none`) on failure.  The spec (section 4.5) describes the result set
of a query as the totality of matches from which a viewport is cut; the
wrapper applies its own offset/count window over the returned list
(src lines 167-182), so the model hands back the whole list.  Determinism of
the snapshot during the calls under study is the "no index mutations between
the calls" assumption the claims make. -/
structure SDKModel where
  matchesFor : String → Option (List String)

/-- The attribute state of an `Everything3` instance that the `search` method
reads and writes: the shared search-state handle contents, and the
`self.items` / `self.num_results` attributes set at lines 166-167.
`max_path` is the attribute set to 32767 in `__init__` (line 43). -/
structure Everything3 where
  search_state : SearchState
  items : List String
  num_results : Nat
  max_path : Nat
deriving Repr, DecidableEq

/-- Modelled from the spec: `Everything3_GetResultFullPathNameW` copies the
full path of result `i` into a caller-supplied wide-character buffer of
capacity `bufsize`, NUL-terminated; a buffer of capacity `bufsize` holds at
most `bufsize - 1` characters of the path, so longer paths arrive truncated.
The wrapper reads the buffer back with `.value` (line 182). -/
def getResultFullPathNameW (result_list : List String) (i : Nat) (bufsize : Nat) : String :=
  String.mk ((result_list.getD i "").data.take (bufsize - 1))

/-- The result-retrieval loop of `Everything3.search`, lines 166-182:
`num_results` is the count reported by `Everything3_GetResultListCount`
(line 167), `_num = min(num_results, count)` when `count > 0` else
`num_results` (lines 169-172), and the loop `for _i in range(offset, _num)`
appends the path of result `_i` read through the `max_path`-sized buffer
(lines 174-182). -/
def searchLoopItems (result_list : List String) (offset count max_path : Nat) : List String :=
  let num_results := result_list.length
  let num := if count > 0 then min num_results count else num_results
  (List.range' offset (num - offset)).map
    (fun i => getResultFullPathNameW result_list i max_path)

/-- `Everything3.search(pattern, offset, count)`, lines 141-187: store the
pattern and the viewport parameters into the shared search state (lines
154-158), run `Everything3_Search` (line 161); a null result list returns `[]`
at once (lines 162-163); otherwise set `self.num_results` from
`Everything3_GetResultListCount`, rebuild `self.items` through the retrieval
loop and return it (lines 166-187). -/
def Everything3.search (sdk : SDKModel) (self : Everything3) (pattern : String)
    (offset : Nat) (count : Nat) : Everything3 × List String :=
  let self := { self with search_state :=
    { self.search_state with text := pattern, viewport_offset := offset, viewport_count := count } }
  match sdk.matchesFor pattern with
  | none => (self, [])
  | some result_list =>
    let items := searchLoopItems result_list offset count self.max_path
    ({ self with items := items, num_results := result_list.length }, items)

/-- Definition following the words of the spec, for comparison with the code:
"returns exactly `min(count, total_matches - offset)` entries starting at
`offset`, or all remaining matches when `count == 0`". -/
def specWindow (full : List String) (offset count : Nat) : List String :=
  if count = 0 then full.drop offset else (full.drop offset).take count

namespace Everything3

/-- `set_match_path` (lines 189-191). -/
def set_match_path (self : Everything3) (enable : Bool) : Everything3 :=
  { self with search_state := { self.search_state with match_path := enable } }

/-- `set_match_case` (lines 193-195). -/
def set_match_case (self : Everything3) (enable : Bool) : Everything3 :=
  { self with search_state := { self.search_state with match_case := enable } }

/-- `set_match_whole_word` (lines 197-199). -/
def set_match_whole_word (self : Everything3) (enable : Bool) : Everything3 :=
  { self with search_state := { self.search_state with match_whole_words := enable } }

/-- `set_regex` (lines 201-203). -/
def set_regex (self : Everything3) (enable : Bool) : Everything3 :=
  { self with search_state := { self.search_state with regex := enable } }

/-- `set_match_diacritics` (lines 205-207). -/
def set_match_diacritics (self : Everything3) (enable : Bool) : Everything3 :=
  { self with search_state := { self.search_state with match_diacritics := enable } }

/-- `set_match_prefix` (lines 209-211). -/
def set_match_prefix (self : Everything3) (enable : Bool) : Everything3 :=
  { self with search_state := { self.search_state with match_prefix := enable } }

/-- `set_match_suffix` (lines 213-215). -/
def set_match_suffix (self : Everything3) (enable : Bool) : Everything3 :=
  { self with search_state := { self.search_state with match_suffix := enable } }

/-- `set_ignore_punctuation` (lines 217-219). -/
def set_ignore_punctuation (self : Everything3) (enable : Bool) : Everything3 :=
  { self with search_state := { self.search_state with ignore_punctuation := enable } }

/-- `set_whitespace` (lines 221-223). -/
def set_whitespace (self : Everything3) (enable : Bool) : Everything3 :=
  { self with search_state := { self.search_state with whitespace := enable } }

/-- `set_folders_first` (lines 225-227). -/
def set_folders_first (self : Everything3) (folders_first_type : Nat) : Everything3 :=
  { self with search_state := { self.search_state with folders_first := folders_first_type } }

/-- `set_request_total_size` (lines 229-231). -/
def set_request_total_size (self : Everything3) (enable : Bool) : Everything3 :=
  { self with search_state := { self.search_state with request_total_size := enable } }

/-- `set_hide_result_omissions` (lines 233-235). -/
def set_hide_result_omissions (self : Everything3) (enable : Bool) : Everything3 :=
  { self with search_state := { self.search_state with hide_result_omissions := enable } }

/-- `set_sort_mix` (lines 237-239). -/
def set_sort_mix (self : Everything3) (enable : Bool) : Everything3 :=
  { self with search_state := { self.search_state with sort_mix := enable } }

end Everything3

/-- The environment `__init__` probes: whether the DLL file exists (line 38),
and the raw pointers returned by `Everything3_ConnectW` (line 137) and
`Everything3_CreateSearchState` (line 48); `none` models a null pointer
(ctypes converts a NULL `c_void_p` result to `None`, which is falsy). -/
structure Env where
  dll_exists : Bool
  connect_w : Option Nat
  create_search_state : Option Nat

/-- The two kinds of exception `__init__` can raise. -/
inductive InitError where
  | fileNotFoundError (msg : String)
  | runtimeError (msg : String)
deriving Repr, DecidableEq

/-- The handle attributes a successfully constructed instance holds. -/
structure Everything3Handles where
  max_path : Nat
  client : Nat
  search_state : Nat
deriving Repr, DecidableEq

/-- `Everything3.__init__` (lines 35-50) together with the tail of
`_setup_functions` (lines 136-139), which runs between line 45 and line 48:
raise `FileNotFoundError` when the DLL file is absent (lines 38-41); set
`max_path = 32767` (line 43); connect to Everything, raising `RuntimeError`
on a null client (lines 137-139); create the search state, raising
`RuntimeError` on a null handle (lines 48-50). -/
def Everything3.init (env : Env) : Except InitError Everything3Handles :=
  if env.dll_exists then
    match env.connect_w with
    | none => .error (.runtimeError "Failed to connect to Everything")
    | some client =>
      match env.create_search_state with
      | none => .error (.runtimeError "Failed to create search state")
      | some search_state =>
        .ok { max_path := 32767, client := client, search_state := search_state }
  else
    .error (.fileNotFoundError "Everything3_x64.dll not found")

/-- The attribute state of an instance with Python list objects held by
reference: `items_ref` is the index, in the allocation order of the heap, of
the list object currently bound to `self.items`. -/
structure Everything3Refs where
  search_state : SearchState
  items_ref : Nat
  num_results : Nat
  max_path : Nat
deriving Repr, DecidableEq

/-- `Everything3.search` again, with the allocation of Python list objects
made explicit in order to reason about ownership of returned result lists.
The heap is the sequence of list objects allocated so far; a reference is an
index into it.  The literal `[]` of line 163 and `self.items = []` at line
166 each bind a fresh list object, never clearing or writing into an already
existing one, and `append` (line 182) only ever grows the object freshly
allocated at line 166.  Returns the new heap, the new attribute state and the
reference of the list object the call returns. -/
def Everything3.searchAlloc (sdk : SDKModel) (heap : List (List String))
    (self : Everything3Refs) (pattern : String) (offset : Nat) (count : Nat) :
    List (List String) × Everything3Refs × Nat :=
  let self := { self with search_state :=
    { self.search_state with text := pattern, viewport_offset := offset, viewport_count := count } }
  match sdk.matchesFor pattern with
  | none => (heap ++ [[]], self, heap.length)
  | some result_list =>
    let items := searchLoopItems result_list offset count self.max_path
    (heap ++ [items],
      { self with items_ref := heap.length, num_results := result_list.length },
      heap.length)

/-! Concrete instances used by the closed theorems below. -/

/-- A concrete search-state value, as a caller may have configured it before
the calls under study. -/
def stateEx : SearchState :=
  ⟨"old", 0, 0, false, false, false, false, false, false, false, false, false, 0, false, false, false⟩

/-- A concrete instance state: `max_path` as `__init__` sets it (line 43),
with leftover `items` and `num_results` from an earlier call. -/
def e3Ex : Everything3 := ⟨stateEx, ["seed"], 7, 32767⟩

/-- A snapshot in which every query matches exactly the two paths
`"a"` and `"b"`, in this order. -/
def sdkAB : SDKModel := ⟨fun _ => some ["a", "b"]⟩

/-- A vendor library whose `Everything3_Search` always yields a null result
list, as it does when it rejects the query. -/
def sdkNone : SDKModel := ⟨fun _ => none⟩

/-- A resolved full path of 40000 characters, far beyond `max_path`. -/
def longPath : String := String.mk (List.replicate 40000 'a')

/-- A snapshot with a single match whose resolved path is `longPath`. -/
def sdkLong : SDKModel := ⟨fun _ => some [longPath]⟩

/-- An environment in which the DLL file is absent. -/
def envNoDll : Env := ⟨false, none, none⟩

/-- The DLL is present but `Everything3_ConnectW` yields a null client. -/
def envNoConn : Env := ⟨true, none, some 5⟩

/-- Connecting succeeds but `Everything3_CreateSearchState` yields null. -/
def envNoState : Env := ⟨true, some 7, none⟩

/-- Both handles come back non-null. -/
def envOk : Env := ⟨true, some 7, some 9⟩

/-! Helper lemmas shared by the claim theorems. -/

theorem search_snd_some {sdk : SDKModel} {p : String} {L : List String}
    (self : Everything3) (offset count : Nat) (h : sdk.matchesFor p = some L) :
    (Everything3.search sdk self p offset count).2 =
      searchLoopItems L offset count self.max_path := by
  simp [Everything3.search, h]

theorem search_snd_none {sdk : SDKModel} {p : String}
    (self : Everything3) (offset count : Nat) (h : sdk.matchesFor p = none) :
    (Everything3.search sdk self p offset count).2 = [] := by
  simp [Everything3.search, h]

theorem search_fst_max_path (sdk : SDKModel) (self : Everything3) (p : String)
    (offset count : Nat) :
    (Everything3.search sdk self p offset count).1.max_path = self.max_path := by
  rcases h : sdk.matchesFor p with _ | L <;> simp [Everything3.search, h]

/-! Claim theorems. -/

/-- C1.  The claim says `search(pattern, offset, count)` returns exactly
`min(count, total_matches - offset)` entries, the window of the full match
list starting at `offset`.  The code instead iterates
`range(offset, min(num_results, count))`, using `count` as an end index, so
with 2 total matches, `offset = 1` and `count = 1` it returns no entry where
the claim requires the one-entry window `["b"]`. -/
theorem search_count_used_as_end_index_bug :
    (Everything3.search sdkAB e3Ex "x" 1 1).2 = [] ∧
    (Everything3.search sdkAB e3Ex "x" 1 1).1.num_results = 2 ∧
    specWindow ["a", "b"] 1 1 = ["b"] ∧
    (Everything3.search sdkAB e3Ex "x" 1 1).2 ≠ specWindow ["a", "b"] 1 1 := by
  refine ⟨?_, ?_, ?_, ?_⟩ <;> decide

/-- C3.  When `offset` is at least the total number of matches, `search`
returns the empty list (for every `count`, whether limited or not): the loop
bound `_num` never exceeds the total, so `range(offset, _num)` is empty. -/
theorem search_offset_beyond_total_empty (sdk : SDKModel) (self : Everything3)
    (p : String) (offset count : Nat) (L : List String)
    (hL : sdk.matchesFor p = some L) (ho : L.length ≤ offset) :
    (Everything3.search sdk self p offset count).2 = [] := by
  rw [search_snd_some self offset count hL]
  have hmin : min L.length count ≤ L.length := Nat.min_le_left _ _
  simp only [searchLoopItems]
  have hz : (if 0 < count then min L.length count else L.length) - offset = 0 := by
    split <;> omega
  rw [hz]
  simp

/-- Closed witness for `search_offset_beyond_total_empty` at the concrete
snapshot `sdkAB` (2 matches), offset 5, count 3. -/
theorem search_offset_beyond_total_empty_witness :
    sdkAB.matchesFor "x" = some ["a", "b"] ∧ (["a", "b"] : List String).length ≤ 5 ∧
    (Everything3.search sdkAB e3Ex "x" 5 3).2 = [] :=
  ⟨rfl, by decide, search_offset_beyond_total_empty sdkAB e3Ex "x" 5 3 ["a", "b"] rfl (by decide)⟩

/-- C4 counterexample.  The claim says a malformed query (for example `"("`)
fails with a `SyntaxError` carrying position and reason rather than returning
a result list.  The wrapper has no such error path: it hands the text to the
vendor library, and when the library rejects it with a null result list the
call returns the empty result list normally (lines 162-163). -/
theorem malformed_query_returns_empty_list_not_error :
    sdkNone.matchesFor "(" = none ∧
    (Everything3.search sdkNone e3Ex "(" 0 0).2 = [] := by
  exact ⟨rfl, by decide⟩

/-- C4 amended.  For every query the vendor library rejects (null result
list), `search` returns the empty list normally; no `SyntaxError` value
exists anywhere in the wrapper. -/
theorem rejected_query_returns_empty_list (sdk : SDKModel) (self : Everything3)
    (p : String) (offset count : Nat) (h : sdk.matchesFor p = none) :
    (Everything3.search sdk self p offset count).2 = [] :=
  search_snd_none self offset count h

/-- Closed witness for `rejected_query_returns_empty_list` at the malformed
query `"("` of the spec scenario. -/
theorem rejected_query_returns_empty_list_witness :
    sdkNone.matchesFor "(" = none ∧ (Everything3.search sdkNone e3Ex "(" 7 9).2 = [] :=
  ⟨rfl, rejected_query_returns_empty_list sdkNone e3Ex "(" 7 9 rfl⟩

/-- C6 counterexample.  The claim says executing a query does not mutate any
configuration state shared with other queries or later calls.  But `search`
writes the pattern and the viewport parameters into the single shared
`search_state` (lines 154-158), which every later call reads: after
`search("new", 3, 4)` the shared state differs from the state the caller had
configured. -/
theorem search_mutates_shared_search_state :
    (Everything3.search sdkAB e3Ex "new" 3 4).1.search_state ≠ e3Ex.search_state ∧
    (Everything3.search sdkAB e3Ex "new" 3 4).1.search_state.text = "new" ∧
    e3Ex.search_state.text = "old" := by
  refine ⟨?_, ?_, ?_⟩ <;> decide

/-- C6 amended.  Each `search` call overwrites exactly the text and the
viewport offset/count of the single shared search state and preserves every
match-option field; the configuration is shared and mutable across calls, not
caller-owned, but the match options a caller sets survive every query
unchanged. -/
theorem search_state_after_search (sdk : SDKModel) (self : Everything3)
    (p : String) (offset count : Nat) :
    (Everything3.search sdk self p offset count).1.search_state =
      { self.search_state with
          text := p, viewport_offset := offset, viewport_count := count } := by
  rcases h : sdk.matchesFor p with _ | L <;> simp [Everything3.search, h]

/-- C8.  If the vendor search yields a null result list, `search` returns `[]`
and leaves `self.items` and `self.num_results` untouched (lines 161-163);
otherwise it stores the count reported by `Everything3_GetResultListCount`
into `self.num_results` and returns exactly the list it binds to `self.items`
(lines 166-187). -/
theorem search_null_and_nonnull_postconditions (sdk : SDKModel)
    (self : Everything3) (p : String) (offset count : Nat) :
    (sdk.matchesFor p = none →
      (Everything3.search sdk self p offset count).2 = [] ∧
      (Everything3.search sdk self p offset count).1.items = self.items ∧
      (Everything3.search sdk self p offset count).1.num_results = self.num_results) ∧
    (∀ L, sdk.matchesFor p = some L →
      (Everything3.search sdk self p offset count).1.num_results = L.length ∧
      (Everything3.search sdk self p offset count).2 =
        (Everything3.search sdk self p offset count).1.items) := by
  constructor
  · intro h
    simp [Everything3.search, h]
  · intro L h
    simp [Everything3.search, h]

/-- Closed witness for `search_null_and_nonnull_postconditions`: the null
branch at `sdkNone`, and the non-null branch at `sdkAB`. -/
theorem search_null_and_nonnull_postconditions_witness :
    ((Everything3.search sdkNone e3Ex "q" 0 0).2 = [] ∧
      (Everything3.search sdkNone e3Ex "q" 0 0).1.items = e3Ex.items ∧
      (Everything3.search sdkNone e3Ex "q" 0 0).1.num_results = e3Ex.num_results) ∧
    ((Everything3.search sdkAB e3Ex "q" 0 1).1.num_results = (["a", "b"] : List String).length ∧
      (Everything3.search sdkAB e3Ex "q" 0 1).2 =
        (Everything3.search sdkAB e3Ex "q" 0 1).1.items) :=
  ⟨(search_null_and_nonnull_postconditions sdkNone e3Ex "q" 0 0).1 rfl,
    (search_null_and_nonnull_postconditions sdkAB e3Ex "q" 0 1).2 ["a", "b"] rfl⟩

/-- C2 counterexample.  The pagination law is claimed for every
`0 <= k <= total`, but at `k = 0` the second call `search(pattern, 0, k)` has
`count = 0`, which means unlimited, so both halves return the whole match
list and the concatenation doubles it: with matches `["a", "b"]` the law
instantiated at `k = 0` is `["a", "b"] = ["a", "b"] ++ ["a", "b"]`, false. -/
theorem pagination_law_fails_at_k_zero :
    (0 ≤ (["a", "b"] : List String).length) ∧
    (Everything3.search sdkAB e3Ex "x" 0 0).2 ≠
      (Everything3.search sdkAB e3Ex "x" 0 0).2 ++
        (Everything3.search sdkAB (Everything3.search sdkAB e3Ex "x" 0 0).1 "x" 0 0).2 := by
  refine ⟨?_, ?_⟩ <;> decide

/-- C2 amended.  The pagination law holds for every `1 <= k <= total`: the
full list returned by `search(pattern, 0, 0)` is the concatenation of
`search(pattern, 0, k)` and `search(pattern, k, 0)` run consecutively on the
same instance against the same snapshot; at `k = 0` it fails because
`count = 0` means unlimited rather than zero entries. -/
theorem pagination_law_pos_k (sdk : SDKModel) (self : Everything3) (p : String)
    (L : List String) (k : Nat) (hL : sdk.matchesFor p = some L)
    (h1 : 1 ≤ k) (h2 : k ≤ L.length) :
    (Everything3.search sdk self p 0 0).2 =
      (Everything3.search sdk self p 0 k).2 ++
        (Everything3.search sdk (Everything3.search sdk self p 0 k).1 p k 0).2 := by
  rw [search_snd_some self 0 0 hL, search_snd_some self 0 k hL,
    search_snd_some _ k 0 hL, search_fst_max_path]
  have hne : ¬ (0 : Nat) < 0 := by omega
  have hk0 : 0 < k := h1
  simp only [searchLoopItems, if_neg hne, if_pos hk0, Nat.min_eq_right h2, Nat.sub_zero]
  rw [← List.map_append]
  congr 1
  have hr := List.range'_append 0 k (L.length - k) 1
  simp only [Nat.zero_add, Nat.one_mul] at hr
  rw [hr, Nat.sub_add_cancel h2]

/-- Closed witness for `pagination_law_pos_k` at `k = 1` over the two-match
snapshot `sdkAB`. -/
theorem pagination_law_pos_k_witness :
    sdkAB.matchesFor "x" = some ["a", "b"] ∧ 1 ≤ 1 ∧
    1 ≤ (["a", "b"] : List String).length ∧
    (Everything3.search sdkAB e3Ex "x" 0 0).2 =
      (Everything3.search sdkAB e3Ex "x" 0 1).2 ++
        (Everything3.search sdkAB (Everything3.search sdkAB e3Ex "x" 0 1).1 "x" 1 0).2 :=
  ⟨rfl, by decide, by decide,
    pagination_law_pos_k sdkAB e3Ex "x" ["a", "b"] 1 rfl (by decide) (by decide)⟩

/-- C5 counterexample.  The claim says an entry whose resolved full path
exceeds the maximum path length is reported as a `PathTooLong` error and
never silently returned shortened.  The wrapper has no such error path: the
path is read through the fixed `max_path`-character buffer (lines 174-182),
so a 40000-character path comes back as a normally returned result entry
silently truncated to 32766 characters. -/
theorem overlong_path_truncated_not_error :
    longPath.length = 40000 ∧
    (Everything3.search sdkLong e3Ex "x" 0 0).2 = [String.mk (longPath.data.take 32766)] ∧
    (String.mk (longPath.data.take 32766)).length = 32766 := by
  have hdata : longPath.data.length = 40000 := by
    simp only [longPath, List.length_replicate]
  refine ⟨?_, ?_, ?_⟩
  · simp only [longPath, String.length_mk, List.length_replicate]
  · rw [search_snd_some e3Ex 0 0 (show sdkLong.matchesFor "x" = some [longPath] from rfl)]
    show searchLoopItems [longPath] 0 0 32767 = _
    simp only [searchLoopItems, List.length_cons, List.length_nil]
    norm_num
    simp [getResultFullPathNameW]
  · simp only [String.length_mk, List.length_take, hdata]
    exact Nat.min_eq_left (by norm_num)

/-- C5 amended.  Every entry of a result list is the corresponding resolved
full path truncated to at most `max_path - 1 = 32766` characters — overlong
paths are silently shortened, not reported as errors — and every path already
within that bound is returned complete. -/
theorem search_paths_truncated_and_complete_within_bound (sdk : SDKModel)
    (self : Everything3) (p : String) (offset count : Nat) (L : List String)
    (hm : self.max_path = 32767) (hL : sdk.matchesFor p = some L) (s : String)
    (hs : s ∈ (Everything3.search sdk self p offset count).2) :
    ∃ t ∈ L, s = String.mk (t.data.take 32766) ∧ (t.length ≤ 32766 → s = t) := by
  rw [search_snd_some self offset count hL, hm] at hs
  simp only [searchLoopItems, List.mem_map] at hs
  obtain ⟨i, hi, rfl⟩ := hs
  rw [List.mem_range'] at hi
  obtain ⟨j, hj, rfl⟩ := hi
  have hN : (if count > 0 then min L.length count else L.length) ≤ L.length := by
    split
    · exact Nat.min_le_left _ _
    · exact le_rfl
  have hlt : offset + 1 * j < L.length := by omega
  refine ⟨L.get ⟨offset + 1 * j, hlt⟩, List.get_mem _ _ _, ?_, ?_⟩
  · simp only [getResultFullPathNameW]
    rw [List.getD_eq_get L "" hlt]
  · intro ht
    simp only [getResultFullPathNameW]
    rw [List.getD_eq_get L "" hlt, List.take_of_length_le ht]

/-- Closed witness for `search_paths_truncated_and_complete_within_bound` at
the two-match snapshot, for the returned entry `"a"`. -/
theorem search_paths_truncated_and_complete_within_bound_witness :
    e3Ex.max_path = 32767 ∧ sdkAB.matchesFor "x" = some ["a", "b"] ∧
    ("a" : String) ∈ (Everything3.search sdkAB e3Ex "x" 0 0).2 ∧
    (∃ t ∈ (["a", "b"] : List String), ("a" : String) = String.mk (t.data.take 32766) ∧
      (t.length ≤ 32766 → ("a" : String) = t)) :=
  ⟨rfl, rfl, by decide,
    search_paths_truncated_and_complete_within_bound sdkAB e3Ex "x" 0 0 ["a", "b"]
      rfl rfl "a" (by decide)⟩

/-- Each `search` call only ever appends one fresh list object to the heap —
it never writes into an existing cell — and returns the reference of the
fresh object. -/
theorem searchAlloc_extends_heap (sdk : SDKModel) (heap : List (List String))
    (self : Everything3Refs) (p : String) (offset count : Nat) :
    (∃ v, (Everything3.searchAlloc sdk heap self p offset count).1 = heap ++ [v]) ∧
    (Everything3.searchAlloc sdk heap self p offset count).2.2 = heap.length := by
  rcases h : sdk.matchesFor p with _ | L
  · exact ⟨⟨[], by simp [Everything3.searchAlloc, h]⟩, by simp [Everything3.searchAlloc, h]⟩
  · exact ⟨⟨searchLoopItems L offset count self.max_path,
      by simp [Everything3.searchAlloc, h]⟩, by simp [Everything3.searchAlloc, h]⟩

/-- C7.  A result list handed to the caller is never mutated afterwards by
the engine: reading the list object returned by the first `search` call after
a second `search` call completes yields the very same list, element for
element, because line 166 binds `self.items` to a freshly allocated list
object instead of clearing the old one. -/
theorem returned_list_unchanged_by_later_search (sdk : SDKModel)
    (heap : List (List String)) (self : Everything3Refs) (p1 p2 : String)
    (o1 c1 o2 c2 : Nat) :
    ((Everything3.searchAlloc sdk (Everything3.searchAlloc sdk heap self p1 o1 c1).1
        (Everything3.searchAlloc sdk heap self p1 o1 c1).2.1 p2 o2 c2).1).getD
        (Everything3.searchAlloc sdk heap self p1 o1 c1).2.2 [] =
      ((Everything3.searchAlloc sdk heap self p1 o1 c1).1).getD
        (Everything3.searchAlloc sdk heap self p1 o1 c1).2.2 [] := by
  obtain ⟨⟨v1, h1⟩, r1⟩ := searchAlloc_extends_heap sdk heap self p1 o1 c1
  obtain ⟨⟨v2, h2⟩, r2⟩ := searchAlloc_extends_heap sdk
    (Everything3.searchAlloc sdk heap self p1 o1 c1).1
    (Everything3.searchAlloc sdk heap self p1 o1 c1).2.1 p2 o2 c2
  rw [h2]
  refine List.getD_append _ _ _ _ ?_
  rw [r1, h1]
  simp

/-- C9.  `__init__` raises `FileNotFoundError` when the DLL file is absent,
`RuntimeError` when connecting yields a null client or creating the search
state yields a null handle, and on normal return both stored handles are the
non-null pointers the library produced, with `max_path = 32767`. -/
theorem init_errors_and_nonnull_handles (env : Env) :
    (env.dll_exists = false →
      Everything3.init env = .error (.fileNotFoundError "Everything3_x64.dll not found")) ∧
    (env.dll_exists = true → env.connect_w = none →
      Everything3.init env = .error (.runtimeError "Failed to connect to Everything")) ∧
    (env.dll_exists = true → env.create_search_state = none → ∀ cl, env.connect_w = some cl →
      Everything3.init env = .error (.runtimeError "Failed to create search state")) ∧
    (∀ r, Everything3.init env = .ok r →
      env.connect_w = some r.client ∧ env.create_search_state = some r.search_state ∧
        r.max_path = 32767) := by
  rcases env with ⟨de, cw, css⟩
  cases de <;> rcases cw with _ | cl <;> rcases css with _ | ss <;>
    simp [Everything3.init]

/-- Closed witness for `init_errors_and_nonnull_handles` on all four concrete
environments. -/
theorem init_errors_and_nonnull_handles_witness :
    Everything3.init envNoDll = .error (.fileNotFoundError "Everything3_x64.dll not found") ∧
    Everything3.init envNoConn = .error (.runtimeError "Failed to connect to Everything") ∧
    Everything3.init envNoState = .error (.runtimeError "Failed to create search state") ∧
    (envOk.connect_w = some (⟨32767, 7, 9⟩ : Everything3Handles).client ∧
      envOk.create_search_state = some (⟨32767, 7, 9⟩ : Everything3Handles).search_state ∧
      (⟨32767, 7, 9⟩ : Everything3Handles).max_path = 32767) :=
  ⟨(init_errors_and_nonnull_handles envNoDll).1 rfl,
    (init_errors_and_nonnull_handles envNoConn).2.1 rfl rfl,
    (init_errors_and_nonnull_handles envNoState).2.2.1 rfl rfl 7 rfl,
    (init_errors_and_nonnull_handles envOk).2.2.2 ⟨32767, 7, 9⟩ rfl⟩

/-- C10.  Every string in a returned result list has length at most
`max_path - 1 = 32766`: each path is read back through the fixed
`max_path`-character buffer, which truncates anything longer. -/
theorem search_result_length_bound (sdk : SDKModel) (self : Everything3)
    (p : String) (offset count : Nat) (s : String) (hm : self.max_path = 32767)
    (hs : s ∈ (Everything3.search sdk self p offset count).2) :
    s.length ≤ 32766 := by
  rcases h : sdk.matchesFor p with _ | L
  · rw [search_snd_none self offset count h] at hs
    simp at hs
  · rw [search_snd_some self offset count h, hm] at hs
    simp only [searchLoopItems, List.mem_map] at hs
    obtain ⟨i, _, rfl⟩ := hs
    simp only [getResultFullPathNameW, String.length_mk, List.length_take]
    have h1 : (32767 - 1 : Nat) = 32766 := by norm_num
    rw [h1]
    exact Nat.min_le_left _ _

/-- Closed witness for `search_result_length_bound` at a returned entry of
the two-match snapshot. -/
theorem search_result_length_bound_witness :
    e3Ex.max_path = 32767 ∧ ("a" : String) ∈ (Everything3.search sdkAB e3Ex "x" 0 0).2 ∧
    ("a" : String).length ≤ 32766 :=
  ⟨rfl, by decide, search_result_length_bound sdkAB e3Ex "x" 0 0 "a" rfl (by decide)⟩
